import Mathlib

/-!
Shallow embedding of the adaptive decision core of the IPD repository
(`ai.py` and the payoff/round-loop logic of `advanced_prisoners_dilemma.py`).
Python floats are modelled by exact rationals; the global random source is
modelled by an explicit stream of rational draws threaded through every
stochastic call, consumed exactly where the Python code calls `random`.
-/

namespace IPD

/-- A move in the iterated prisoner's dilemma: `'C'` or `'D'` in the source. -/
inductive Move where
  | C : Move
  | D : Move
deriving DecidableEq, Repr

open Move

/-- Explicit random source: a stream of rational draws standing for the
successive values produced by Python's `random` module. -/
structure Rng where
  draws : List ℚ
deriving DecidableEq, Repr

/-- Consume one draw (0 once the stream is exhausted). -/
def Rng.next (g : Rng) : ℚ × Rng :=
  match g.draws with
  | [] => (0, ⟨[]⟩)
  | q :: qs => (q, ⟨qs⟩)

/-- Python `h[-n:]`: the last `n` elements (the whole list when shorter). -/
def lastN (n : ℕ) (h : List Move) : List Move :=
  h.drop (h.length - n)

/-- Python `h.count('C') / len(h)` (as exact rationals). -/
def coopRate (h : List Move) : ℚ :=
  (h.count C : ℚ) / (h.length : ℚ)

/-- Python `h[-3:].count('C') / min(3, len(h))`, the recent-3 cooperation
rate shared by `minimax_decision`, `fuzzy_decision` and `bayesian_decision`. -/
def recentCoopRate (h : List Move) : ℚ :=
  ((lastN 3 h).count C : ℚ) / ((min 3 h.length : ℕ) : ℚ)

/-- Per-strategy win/use counters, one dict entry of `strategy_performance`. -/
structure StratCounts where
  wins : ℕ
  uses : ℕ
deriving DecidableEq, Repr

/-- Source `ai.py` line 8: the closed strategy set. -/
def availableStrategies : List String :=
  ["minimax", "fuzzy", "tit_for_tat", "adaptive", "pattern_matcher", "bayesian"]

/-- State of `AdvancedStrategyAnalyzer` (`ai.py` lines 5-14).  The Python
dict `strategy_performance` (keys: the six strategies) is modelled as a
total function on names; it is only ever read or written at the six keys. -/
structure AdvancedStrategyAnalyzer where
  available_strategies : List String
  current_strategy : String
  opponent_pattern : List String
  strategy_performance : String → StratCounts
  analysis_accuracy : ℚ
  pattern_memory : ℕ
  confidence_threshold : ℚ

/-- Source `AdvancedStrategyAnalyzer.__init__` (`ai.py` lines 7-14). -/
def AdvancedStrategyAnalyzer.init : AdvancedStrategyAnalyzer where
  available_strategies := availableStrategies
  current_strategy := "minimax"
  opponent_pattern := []
  strategy_performance := fun _ => ⟨0, 0⟩
  analysis_accuracy := 85/100
  pattern_memory := 15
  confidence_threshold := 7/10

/-- Source `record_strategy_performance` (`ai.py` lines 82-85): increment `uses`
always and `wins` iff `won_round`. -/
def AdvancedStrategyAnalyzer.record_strategy_performance
    (a : AdvancedStrategyAnalyzer) (strategy : String) (won_round : Bool) :
    AdvancedStrategyAnalyzer :=
  { a with strategy_performance := fun s =>
      if s = strategy then
        ⟨(a.strategy_performance s).wins + (if won_round then 1 else 0),
         (a.strategy_performance s).uses + 1⟩
      else a.strategy_performance s }

/-- The ledger read `wins / max(1, uses)` (`ai.py` lines 49 and 76). -/
def AdvancedStrategyAnalyzer.successRate
    (a : AdvancedStrategyAnalyzer) (s : String) : ℚ :=
  ((a.strategy_performance s).wins : ℚ) / max 1 ((a.strategy_performance s).uses : ℚ)

/-- Source `calculate_pattern_consistency` (`ai.py` lines 62-70): consecutive
2-move transitions, distinct count against `min(4, transition_count)`. -/
def calculate_pattern_consistency (h : List Move) : ℚ :=
  if h.length < 3 then 1/2
  else
    let transitions := h.zip h.tail
    let unique_transitions := transitions.dedup.length
    let max_possible := min 4 transitions.length
    1 - (unique_transitions : ℚ) / (max_possible : ℚ)

/-- Source `calculate_analysis_confidence` (`ai.py` lines 55-60). -/
def calculate_analysis_confidence (h : List Move) : ℚ :=
  if h.length < 5 then 1/2
  else
    let consistency := calculate_pattern_consistency h
    let data_quality := min 1 ((h.length : ℚ) / 20)
    (consistency + data_quality) / 2

/-- Cumulative selection, the semantics of `random.choices(..., weights)`
at a single draw: pick the first item whose cumulative weight exceeds the
scaled target. -/
def pickByCumulative : List (String × ℚ) → ℚ → String
  | [], _ => "minimax"
  | [(s, _)], _ => s
  | (s, w) :: rest, target =>
      if target < w then s else pickByCumulative rest (target - w)

/-- Source `get_weighted_random_strategy` (`ai.py` lines 72-80): one weighted
random pick with weight `0.1 + success_rate` per strategy. -/
def AdvancedStrategyAnalyzer.get_weighted_random_strategy
    (a : AdvancedStrategyAnalyzer) (q : ℚ) : String :=
  let weighted := a.available_strategies.map (fun s => (s, 1/10 + a.successRate s))
  pickByCumulative weighted (q * (weighted.map Prod.snd).sum)

/-- Python `max(d, key=d.get)` over an insertion-ordered dict: the first
key attaining the maximal value (`max` keeps the incumbent on ties). -/
def maxKey : List (String × ℚ) → String
  | [] => "minimax"
  | (s, v) :: rest =>
      (rest.foldl (fun best p => if p.2 > best.2 then p else best) (s, v)).1

/-- Source `analyze_opponent` (`ai.py` lines 16-53).  Two draws at most: the
accuracy gate, then (inside the gate) the weighted random pick. -/
def AdvancedStrategyAnalyzer.analyze_opponent
    (a : AdvancedStrategyAnalyzer) (opp_history : List Move)
    (my_score opp_score : ℤ) (g : Rng) : String × Rng :=
  if opp_history.length < 3 then ("minimax", g)
  else
    let analysis_confidence := calculate_analysis_confidence opp_history
    let r := g.next
    if r.1 > a.analysis_accuracy * analysis_confidence then
      let r2 := r.2.next
      (a.get_weighted_random_strategy r2.1, r2.2)
    else
      let coop_rate := coopRate opp_history
      let pattern_consistency := calculate_pattern_consistency opp_history
      let score_differential := my_score - opp_score
      let base_scores : List (String × ℚ) :=
        if coop_rate > 8/10 ∧ pattern_consistency > 7/10 then
          [("pattern_matcher", 9/10), ("adaptive", 6/10)]
        else if coop_rate < 2/10 ∧ pattern_consistency > 6/10 then
          [("minimax", 9/10), ("bayesian", 7/10)]
        else if pattern_consistency < 4/10 then
          [("adaptive", 8/10), ("fuzzy", 7/10)]
        else if |coop_rate - 1/2| < 2/10 ∧ (score_differential : ℚ) < -5 then
          [("minimax", 8/10), ("pattern_matcher", 6/10)]
        else
          [("adaptive", 7/10), ("bayesian", 6/10)]
      let strategy_scores :=
        base_scores.map (fun p => (p.1, p.2 * (1/2 + a.successRate p.1)))
      (maxKey strategy_scores, r.2)

/-- State of `PowerfulAdaptiveAI` (`ai.py` lines 87-102). -/
structure PowerfulAdaptiveAI where
  name : String
  analyzer : AdvancedStrategyAnalyzer
  my_history : List Move
  opp_history : List Move
  current_strategy : String
  strategy_change_cooldown : ℕ
  learning_rate : ℚ
  prediction_accuracy : ℚ
  risk_tolerance : ℚ
  consecutive_losses : ℕ
  aggression_level : ℚ
  pattern_memory : List Move
  bayesian_prior : ℚ

/-- Source `PowerfulAdaptiveAI.__init__` (`ai.py` lines 89-102). -/
def PowerfulAdaptiveAI.init : PowerfulAdaptiveAI where
  name := "Adaptive AI"
  analyzer := .init
  my_history := []
  opp_history := []
  current_strategy := "minimax"
  strategy_change_cooldown := 0
  learning_rate := 85/100
  prediction_accuracy := 88/100
  risk_tolerance := 4/10
  consecutive_losses := 0
  aggression_level := 3/10
  pattern_memory := []
  bayesian_prior := 1/2

/-- The arithmetic of `update_bayesian_prior` (`ai.py` lines 104-108). -/
def updatePrior (p : ℚ) (m : Move) : ℚ :=
  if m = C then min (95/100) (p * (11/10)) else max (5/100) (p * (9/10))

/-- Source `update_bayesian_prior` as a state update on the agent. -/
def PowerfulAdaptiveAI.update_bayesian_prior
    (ai : PowerfulAdaptiveAI) (m : Move) : PowerfulAdaptiveAI :=
  { ai with bayesian_prior := updatePrior ai.bayesian_prior m }

/-- Source `minimax_decision` (`ai.py` lines 151-164). -/
def PowerfulAdaptiveAI.minimax_decision (ai : PowerfulAdaptiveAI) : Move :=
  if ai.opp_history = [] then C
  else
    let coop_rate := coopRate ai.opp_history
    let recent_trend := recentCoopRate ai.opp_history
    let weighted_coop := coop_rate * (4/10) + recent_trend * (6/10)
    let risk_adjustment := 1 - ai.risk_tolerance
    let ev_coop := weighted_coop * 3 + (1 - weighted_coop) * 0
    let ev_defect0 := weighted_coop * 5 * risk_adjustment + (1 - weighted_coop) * 1
    let ev_defect :=
      if 10 < ai.my_history.length then
        if (ai.my_history.count D : ℚ) / (ai.my_history.length : ℚ) > 7/10 then
          ev_defect0 * (9/10)
        else ev_defect0
      else ev_defect0
    if ev_coop > ev_defect then C else D

/-- The tally loop of `markov_prediction` (`ai.py` lines 140-144): for every
consecutive triple `(a, b, c)` of the history (i.e. every loop index
`i ∈ [2, len)` with state `h[i-2:i]` and successor `h[i]`), count the
successors of the given 2-move state; result `(count C, count D)`. -/
def countTransitions : List Move → Move × Move → ℕ × ℕ
  | a :: b :: c :: rest, st =>
      let t := countTransitions (b :: c :: rest) st
      if (a, b) = st then
        match c with
        | C => (t.1 + 1, t.2)
        | D => (t.1, t.2 + 1)
      else t
  | _, _ => (0, 0)

/-- Python `''.join(h[-2:])`, the current 2-move state (for `len h ≥ 2`). -/
def last2 (h : List Move) : Move × Move :=
  (h.getD (h.length - 2) C, h.getD (h.length - 1) C)

/-- Source `markov_prediction` (`ai.py` lines 136-149).  `max` over the dict
`{'C': tc, 'D': td}` yields `'C'` unless `td > tc` (first key wins ties). -/
def PowerfulAdaptiveAI.markov_prediction (ai : PowerfulAdaptiveAI) : Move :=
  if ai.opp_history.length < 3 then ai.minimax_decision
  else
    let current_state := last2 ai.opp_history
    let t := countTransitions ai.opp_history current_state
    if t.1 + t.2 = 0 then ai.minimax_decision
    else
      let predicted_move := if t.2 > t.1 then D else C
      if predicted_move = C then D else C

/-- Source `pattern_matcher_decision` (`ai.py` lines 124-134).  In the `CDCD` and
`DCDC` rows the source returns `opp_history[-1]`, which is the last move of
the matched pattern. -/
def PowerfulAdaptiveAI.pattern_matcher_decision (ai : PowerfulAdaptiveAI) : Move :=
  if ai.opp_history.length < 4 then ai.minimax_decision
  else
    match lastN 4 ai.opp_history with
    | [C, C, C, C] => D
    | [D, D, D, D] => C
    | [C, D, C, D] => D
    | [D, C, D, C] => C
    | [C, C, D, C] => D
    | [D, D, C, D] => C
    | _ => ai.markov_prediction

/-- The posterior denominator of `bayesian_decision` (`ai.py` lines 116-117). -/
def PowerfulAdaptiveAI.bayesDenominator (ai : PowerfulAdaptiveAI) : ℚ :=
  let likelihood := recentCoopRate ai.opp_history
  likelihood * ai.bayesian_prior + (1 - likelihood) * (1 - ai.bayesian_prior)

/-- Source `bayesian_decision` (`ai.py` lines 110-122).  The unused
`evidence_strength` of line 114 is omitted. -/
def PowerfulAdaptiveAI.bayesian_decision (ai : PowerfulAdaptiveAI) : Move :=
  if ai.opp_history = [] then C
  else
    let likelihood := recentCoopRate ai.opp_history
    let posterior := (likelihood * ai.bayesian_prior) / ai.bayesDenominator
    let confidence := |posterior - 1/2| * 2
    if confidence > 6/10 then (if posterior > 1/2 then C else D)
    else ai.minimax_decision

/-- Source `tit_for_tat_decision` (`ai.py` lines 183-191): a draw is consumed only
when the opponent's last move was `D`. -/
def PowerfulAdaptiveAI.tit_for_tat_decision
    (ai : PowerfulAdaptiveAI) (g : Rng) : Move × Rng :=
  match ai.opp_history.getLast? with
  | none => (C, g)
  | some lastMove =>
    if lastMove = D then
      let overall_coop := coopRate ai.opp_history
      let forgiveness_prob := 1/10 + overall_coop * (3/10)
      let r := g.next
      if r.1 < forgiveness_prob then (C, r.2) else (lastMove, r.2)
    else (lastMove, g)

/-- The per-round payoff to the caller, the `('C','C') → 3`, ... table of
`calculate_comprehensive_success` (`ai.py` lines 221-228). -/
def roundPayoff : Move × Move → ℕ
  | (C, C) => 3
  | (C, D) => 0
  | (D, C) => 5
  | (D, D) => 1

/-- Source `calculate_comprehensive_success` (`ai.py` lines 213-234).  The Python
loop indexes `opp_history[i]` for `i < len(my_history)`; `zip` agrees with
it whenever the opponent history is at least as long (always true in the
driver, which appends to both in lockstep). -/
def PowerfulAdaptiveAI.calculate_comprehensive_success
    (ai : PowerfulAdaptiveAI) : ℚ :=
  if ai.my_history.length < 2 then 1/2
  else
    let pairs := ai.my_history.zip ai.opp_history
    let total_score := (pairs.map roundPayoff).sum
    let max_possible := 5 * ai.my_history.length
    let base_rate := (total_score : ℚ) / (max_possible : ℚ)
    let exploit_success :=
      ((pairs.countP (fun p => p.1 == D && p.2 == C)) : ℚ) /
        max 1 (ai.my_history.length : ℚ)
    min 1 (base_rate * (7/10) + exploit_success * (3/10))

/-- Source `adaptive_decision` (`ai.py` lines 193-211): the only decision routine
that mutates agent state (`consecutive_losses`, `aggression_level`). -/
def PowerfulAdaptiveAI.adaptive_decision
    (ai : PowerfulAdaptiveAI) (g : Rng) : Move × PowerfulAdaptiveAI × Rng :=
  if ai.opp_history = [] then (C, ai, g)
  else
    let success_rate := ai.calculate_comprehensive_success
    if success_rate > 7/10 then
      match ai.my_history.getLast? with
      | some prev =>
        let r := g.next
        ((if r.1 < 8/10 then prev else D), ai, r.2)
      | none => (C, ai, g)
    else if success_rate < 4/10 then
      let ai2 := { ai with
        consecutive_losses := ai.consecutive_losses + 1,
        aggression_level := min (8/10) (ai.aggression_level + 1/10) }
      if ai2.consecutive_losses > 2 then (D, ai2, g)
      else
        let r := g.next
        ((if r.1 < 3/10 then C else D), ai2, r.2)
    else
      let ai2 := { ai with consecutive_losses := 0 }
      let r := g.next
      ((if r.1 < 6/10 then C else D), ai2, r.2)

/-- Source `fuzzy_decision` (`ai.py` lines 166-181). -/
def PowerfulAdaptiveAI.fuzzy_decision
    (ai : PowerfulAdaptiveAI) (g : Rng) : Move × Rng :=
  if ai.opp_history = [] then (C, g)
  else
    let coop_rate := coopRate ai.opp_history
    let recent_trend := recentCoopRate ai.opp_history
    let consistency := calculate_pattern_consistency ai.opp_history
    if coop_rate > 8/10 ∧ recent_trend > 6/10 then
      let r := g.next
      ((if r.1 < 9/10 then C else D), r.2)
    else if coop_rate < 2/10 ∧ recent_trend < 4/10 then
      let r := g.next
      ((if r.1 < 9/10 then D else C), r.2)
    else if consistency > 7/10 then (ai.pattern_matcher_decision, g)
    else if |coop_rate - 1/2| < 3/10 ∧ consistency < 4/10 then
      ai.tit_for_tat_decision g
    else (ai.bayesian_decision, g)

/-- Python `random.randint(2, 5)` from one draw: some integer in `[2, 5]`. -/
def randint25 (q : ℚ) : ℕ :=
  2 + min 3 (max 0 ⌊q * 4⌋).toNat

/-- The strategy-selection block of `decide_move` (`ai.py` lines 237-247):
re-analysis eligibility, the analyzer consultation, the cooldown update. -/
def PowerfulAdaptiveAI.select_strategy (ai : PowerfulAdaptiveAI)
    (round_num : ℕ) (my_score opp_score : ℤ) (g : Rng) :
    PowerfulAdaptiveAI × Rng :=
  let should_analyze := ai.strategy_change_cooldown ≤ 0 ∧
      3 ≤ ai.opp_history.length ∧
      (round_num % 3 = 0 ∨ ai.opp_history.length < 8)
  if should_analyze then
    let r := ai.analyzer.analyze_opponent ai.opp_history my_score opp_score g
    if r.1 ≠ ai.current_strategy then
      let r2 := r.2.next
      ({ ai with current_strategy := r.1,
                 strategy_change_cooldown := randint25 r2.1 }, r2.2)
    else (ai, r.2)
  else
    ({ ai with strategy_change_cooldown := ai.strategy_change_cooldown - 1 }, g)

/-- The strategy dispatch of `decide_move` (`ai.py` lines 252-265): the
if/elif chain on `current_strategy`, ending in the minimax fallback. -/
def PowerfulAdaptiveAI.dispatch_strategy (ai : PowerfulAdaptiveAI) (g : Rng) :
    Move × PowerfulAdaptiveAI × Rng :=
  if ai.current_strategy = "minimax" then (ai.minimax_decision, ai, g)
  else if ai.current_strategy = "fuzzy" then
    let r := ai.fuzzy_decision g
    (r.1, ai, r.2)
  else if ai.current_strategy = "tit_for_tat" then
    let r := ai.tit_for_tat_decision g
    (r.1, ai, r.2)
  else if ai.current_strategy = "adaptive" then ai.adaptive_decision g
  else if ai.current_strategy = "pattern_matcher" then
    (ai.pattern_matcher_decision, ai, g)
  else if ai.current_strategy = "bayesian" then (ai.bayesian_decision, ai, g)
  else (ai.minimax_decision, ai, g)

/-- Source `decide_move` (`ai.py` lines 236-268): strategy selection, the 1%
uniformly-random override (which returns without updating the prior), the
dispatch, then the Bayesian-prior update with the chosen move. -/
def PowerfulAdaptiveAI.decide_move (ai : PowerfulAdaptiveAI)
    (round_num : ℕ) (my_score opp_score : ℤ) (g : Rng) :
    Move × PowerfulAdaptiveAI × Rng :=
  let s := ai.select_strategy round_num my_score opp_score g
  let r1 := s.2.next
  if r1.1 < 1/100 then
    let r2 := r1.2.next
    ((if r2.1 < 1/2 then C else D), s.1, r2.2)
  else
    let t := s.1.dispatch_strategy r1.2
    (t.1, t.2.1.update_bayesian_prior t.1, t.2.2)

/-- Source `PowerfulAdaptiveAI.reset` (`ai.py` lines 270-278).  `pattern_memory`
is not among the fields the source resets. -/
def PowerfulAdaptiveAI.reset (ai : PowerfulAdaptiveAI) : PowerfulAdaptiveAI :=
  { ai with
    my_history := []
    opp_history := []
    current_strategy := "minimax"
    strategy_change_cooldown := 0
    consecutive_losses := 0
    aggression_level := 3/10
    bayesian_prior := 1/2
    analyzer := .init }

/-- A personality profile (`ai.py` lines 289-301): one row of the
`personalities` dict. -/
structure Personality where
  coop_bias : ℚ
  forgiveness : ℚ
  aggression : ℚ
  adaptability : ℚ
deriving DecidableEq, Repr

/-- Source `init_personality` (`ai.py` lines 289-301): `personalities.get`
with the `"random"` profile as the default for unknown types. -/
def init_personality (ai_type : String) : Personality :=
  if ai_type = "cooperative" then ⟨8/10, 9/10, 1/10, 3/10⟩
  else if ai_type = "aggressive" then ⟨2/10, 1/10, 9/10, 6/10⟩
  else if ai_type = "random" then ⟨1/2, 1/2, 1/2, 1⟩
  else if ai_type = "tit_for_tat" then ⟨1/2, 3/10, 1/2, 7/10⟩
  else if ai_type = "forgiving" then ⟨7/10, 8/10, 2/10, 1/2⟩
  else if ai_type = "strategic" then ⟨6/10, 4/10, 6/10, 9/10⟩
  else if ai_type = "unpredictable" then ⟨1/2, 1/2, 1/2, 8/10⟩
  else if ai_type = "exploitative" then ⟨4/10, 2/10, 8/10, 7/10⟩
  else if ai_type = "mirror" then ⟨1/2, 1/2, 1/2, 6/10⟩
  else ⟨1/2, 1/2, 1/2, 1⟩

/-- Python `f"{ai_type.replace('_', ' ').title()} AI"` (`ai.py` line 284). -/
def opponentName (ai_type : String) : String :=
  String.intercalate " "
    (((ai_type.replace "_" " ").splitOn " ").map String.capitalize) ++ " AI"

/-- The nine named opponent types (`advanced_prisoners_dilemma.py`
lines 1120-1124). -/
def opponentTypes : List String :=
  ["cooperative", "aggressive", "random", "tit_for_tat", "forgiving",
   "strategic", "unpredictable", "exploitative", "mirror"]

/-- State of `StrategicOpponentAI` (`ai.py` lines 280-287). -/
structure StrategicOpponentAI where
  ai_type : String
  name : String
  my_history : List Move
  opp_history : List Move
  personality : Personality

/-- Source `StrategicOpponentAI.__init__` (`ai.py` lines 282-287). -/
def StrategicOpponentAI.init (ai_type : String) : StrategicOpponentAI where
  ai_type := ai_type
  name := opponentName ai_type
  my_history := []
  opp_history := []
  personality := init_personality ai_type

/-- Source `StrategicOpponentAI.decide_move` (`ai.py` lines 311-360): the if/elif
chain on `ai_type`, ending in the constant-`'C'` else branch.  Draws are
consumed exactly where the source calls `random.random()` (in particular
`forgiving` draws only after a defection, by short-circuiting). -/
def StrategicOpponentAI.decide_move (o : StrategicOpponentAI)
    (round_num : ℕ) (my_score opp_score : ℤ) (g : Rng) : Move × Rng :=
  if o.ai_type = "cooperative" then
    let r := g.next
    ((if r.1 < 8/10 then C else D), r.2)
  else if o.ai_type = "aggressive" then
    let r := g.next
    ((if r.1 < 8/10 then D else C), r.2)
  else if o.ai_type = "random" then
    let r := g.next
    ((if r.1 < 1/2 then C else D), r.2)
  else if o.ai_type = "tit_for_tat" then
    match o.opp_history.getLast? with
    | none => (C, g)
    | some lastMove => (lastMove, g)
  else if o.ai_type = "forgiving" then
    match o.opp_history.getLast? with
    | none => (C, g)
    | some lastMove =>
      if lastMove = D then
        let r := g.next
        if r.1 < o.personality.forgiveness then (C, r.2) else (lastMove, r.2)
      else (lastMove, g)
  else if o.ai_type = "strategic" then
    if o.opp_history.length < 3 then (C, g)
    else
      let recent_pattern := lastN 3 o.opp_history
      if 5 ≤ o.opp_history.length ∧ recent_pattern.dedup.length = 1 then
        ((if recent_pattern.getD 0 C = C then D else C), g)
      else
        ((if coopRate o.opp_history > 6/10 then C else D), g)
  else if o.ai_type = "unpredictable" then
    if o.my_history.length < 2 then (C, g)
    else
      let r := g.next
      if r.1 < 3/10 then
        ((if o.my_history.getLast? = some C then D else C), r.2)
      else
        match o.opp_history.getLast? with
        | some lastMove => (lastMove, r.2)
        | none => (C, r.2)
  else if o.ai_type = "exploitative" then
    if o.opp_history.length < 4 then (C, g)
    else if (lastN 2 o.opp_history).all (fun m => m == C) then (D, g)
    else if (lastN 2 o.opp_history).all (fun m => m == D) then (C, g)
    else
      let r := g.next
      ((if r.1 < 6/10 then D else C), r.2)
  else if o.ai_type = "mirror" then
    match o.opp_history.getLast? with
    | none => (C, g)
    | some lastMove =>
      let r := g.next
      if r.1 < 1/10 then ((if lastMove = C then D else C), r.2)
      else (lastMove, r.2)
  else (C, g)

/-- Source `StrategicOpponentAI.reset` (`ai.py` lines 362-364). -/
def StrategicOpponentAI.reset (o : StrategicOpponentAI) : StrategicOpponentAI :=
  { o with my_history := [], opp_history := [] }

/-- The payoff matrix `self.payoffs` (`advanced_prisoners_dilemma.py`
lines 1112-1117). -/
def payoffs : Move × Move → ℤ × ℤ
  | (C, C) => (3, 3)
  | (C, D) => (0, 5)
  | (D, C) => (5, 0)
  | (D, D) => (1, 1)

/-- The match-driver state the round loop touches: the two agents, their
accumulated scores, the round counter/limit and the round log
(`setup_game`, `advanced_prisoners_dilemma.py` lines 1106-1155). -/
structure GameDriver where
  adaptive : PowerfulAdaptiveAI
  opponent : StrategicOpponentAI
  p1_score : ℤ
  p2_score : ℤ
  round_number : ℕ
  max_rounds : ℕ
  history : List (Move × Move × ℤ × ℤ)

/-- Fresh driver state for a chosen opponent type (`setup_game`). -/
def GameDriver.init (opponent_type : String) : GameDriver where
  adaptive := .init
  opponent := .init opponent_type
  p1_score := 0
  p2_score := 0
  round_number := 0
  max_rounds := 25
  history := []

/-- Source `play_round` (`advanced_prisoners_dilemma.py` lines 1311-1452),
restricted to its core effects: both decisions, the four history appends,
the payoff lookup, the score accumulation and the round log.  Past the
round limit the function ends the game without touching the agents. -/
def GameDriver.play_round (d : GameDriver) (g : Rng) : GameDriver × Rng :=
  if d.max_rounds ≤ d.round_number then (d, g)
  else
    let m1 := d.adaptive.decide_move d.round_number d.p1_score d.p2_score g
    let move1 := m1.1
    let m2 := d.opponent.decide_move d.round_number d.p2_score d.p1_score m1.2.2
    let move2 := m2.1
    let ai1 := { m1.2.1 with
      my_history := m1.2.1.my_history ++ [move1],
      opp_history := m1.2.1.opp_history ++ [move2] }
    let opp := { d.opponent with
      my_history := d.opponent.my_history ++ [move2],
      opp_history := d.opponent.opp_history ++ [move1] }
    let sc := payoffs (move1, move2)
    ({ d with
        adaptive := ai1
        opponent := opp
        p1_score := d.p1_score + sc.1
        p2_score := d.p2_score + sc.2
        history := d.history ++ [(move1, move2, sc.1, sc.2)]
        round_number := d.round_number + 1 }, m2.2)

/-- Driver states reachable from a fresh `setup_game` through the agent
mutation sites of the application: `play_round`, the `start_battle` reset
(lines 1268-1269) and the `change_opponent` replacement (line 1302). -/
inductive Reachable : GameDriver → Prop where
  | init (t : String) : Reachable (GameDriver.init t)
  | play (d : GameDriver) (g : Rng) : Reachable d → Reachable (d.play_round g).1
  | battle_reset (d : GameDriver) : Reachable d →
      Reachable { d with
        adaptive := d.adaptive.reset
        opponent := d.opponent.reset
        p1_score := 0
        p2_score := 0
        round_number := 0
        history := [] }
  | change_opponent (d : GameDriver) (t : String) : Reachable d →
      Reachable { d with opponent := .init t }

/-- One ledger mutation, the shape in which `record_strategy_performance`
calls arrive over a match. -/
def ledgerStep (a : AdvancedStrategyAnalyzer) (op : String × Bool) :
    AdvancedStrategyAnalyzer :=
  a.record_strategy_performance op.1 op.2

/-- The analyzer after an arbitrary sequence of ledger recordings, starting
from a fresh analyzer. -/
def runLedger (ops : List (String × Bool)) : AdvancedStrategyAnalyzer :=
  ops.foldl ledgerStep .init

/-- Opponent history exhibiting a tied Markov state: the final 2-move state
`DC` occurred exactly twice before, once followed by `D` and once by `C`. -/
def markovCexOpp : List Move :=
  List.replicate 5 C ++ [D, C, D] ++ List.replicate 15 C ++ [D, C]

/-- Own history long and defect-heavy enough (25 moves, 18 defections) to
trigger the minimax self-moderation damping. -/
def markovCexMy : List Move :=
  List.replicate 18 D ++ List.replicate 7 C

/-- An adaptive-agent state on which the Markov tie case and the minimax
decision disagree. -/
def markovCexAI : PowerfulAdaptiveAI :=
  { PowerfulAdaptiveAI.init with
      my_history := markovCexMy, opp_history := markovCexOpp }

/-- An adaptive-agent state whose current strategy name is outside the
closed strategy set. -/
def unknownStrategyAI : PowerfulAdaptiveAI :=
  { PowerfulAdaptiveAI.init with current_strategy := "nonsense" }

/-- The driver-state facts that hold in every reachable state: the fields
`reset` does not touch sit at their construction values (no code path
mutates them), and the opponent's derived fields agree with its type. -/
def DriverWellFormed (d : GameDriver) : Prop :=
  d.adaptive.name = "Adaptive AI" ∧
  d.adaptive.analyzer = .init ∧
  d.adaptive.learning_rate = 85/100 ∧
  d.adaptive.prediction_accuracy = 88/100 ∧
  d.adaptive.risk_tolerance = 4/10 ∧
  d.adaptive.pattern_memory = [] ∧
  d.opponent.name = opponentName d.opponent.ai_type ∧
  d.opponent.personality = init_personality d.opponent.ai_type

/-! Helper lemmas about the statistical primitives. -/

theorem recentCoopRate_nonneg (h : List Move) : 0 ≤ recentCoopRate h := by
  unfold recentCoopRate
  positivity

theorem recentCoopRate_le_one (h : List Move) : recentCoopRate h ≤ 1 := by
  unfold recentCoopRate
  rcases Nat.eq_zero_or_pos h.length with h0 | hpos
  · simp [lastN, List.length_eq_zero.mp h0]
  · have hlen : (lastN 3 h).length = min 3 h.length := by
      simp [lastN]
      omega
    have hcount : (lastN 3 h).count C ≤ min 3 h.length := by
      rw [← hlen]
      exact List.count_le_length C (lastN 3 h)
    have hdpos : (0 : ℚ) < ((min 3 h.length : ℕ) : ℚ) := by
      have : 1 ≤ min 3 h.length := by omega
      exact_mod_cast Nat.lt_of_lt_of_le Nat.zero_lt_one this
    rw [div_le_one hdpos]
    exact_mod_cast hcount

theorem updatePrior_mem (p : ℚ) (m : Move) (h1 : 1/20 ≤ p) (h2 : p ≤ 19/20) :
    1/20 ≤ updatePrior p m ∧ updatePrior p m ≤ 19/20 := by
  unfold updatePrior
  cases m
  · simp only [if_pos rfl]
    constructor
    · apply le_min (by norm_num)
      nlinarith
    · calc min (95/100) (p * (11/10)) ≤ 95/100 := min_le_left _ _
        _ ≤ 19/20 := by norm_num
  · simp only [reduceCtorEq, if_neg]
    constructor
    · calc (1 : ℚ)/20 ≤ 5/100 := by norm_num
        _ ≤ max (5/100) (p * (9/10)) := le_max_left _ _
    · apply max_le (by norm_num)
      nlinarith

/-- C6: the payoff lookup is total over the four ordered move pairs with
`score(C,C) = (3,3)`, `score(C,D) = (0,5)`, `score(D,C) = (5,0)`,
`score(D,D) = (1,1)`, and as a Lean function it is side-effect-free. -/
theorem C6_payoff_matrix :
    payoffs (C, C) = (3, 3) ∧ payoffs (C, D) = (0, 5) ∧
    payoffs (D, C) = (5, 0) ∧ payoffs (D, D) = (1, 1) := by
  decide

/-- C3 (amended): for every opponent history of length at least 5, the
analysis confidence equals the average of the pattern consistency and the
data-quality ramp `min(1, len/20)`. -/
theorem C3_confidence_formula (h : List Move) (h5 : 5 ≤ h.length) :
    calculate_analysis_confidence h =
      (calculate_pattern_consistency h + min 1 ((h.length : ℚ) / 20)) / 2 := by
  unfold calculate_analysis_confidence
  rw [if_neg (by omega)]

/-- C3 witness: the amended formula evaluated on a length-5 history. -/
theorem C3_confidence_formula_witness :
    calculate_analysis_confidence [C, C, C, C, C] =
      (calculate_pattern_consistency [C, C, C, C, C] +
        min 1 ((([C, C, C, C, C] : List Move).length : ℚ) / 20)) / 2 :=
  C3_confidence_formula [C, C, C, C, C] (by decide)

/-- C3 counterexample: at a length-3 history the source returns the neutral
0.5 (its data floor is length 5, not 3), while the claimed average is
13/40. -/
theorem C3_counterexample :
    calculate_analysis_confidence [C, C, C] ≠
      (calculate_pattern_consistency [C, C, C] +
        min 1 ((([C, C, C] : List Move).length : ℚ) / 20)) / 2 := by
  have hL : calculate_analysis_confidence [C, C, C] = 1/2 := by
    norm_num [calculate_analysis_confidence]
  have hc : calculate_pattern_consistency [C, C, C] = 1/2 := by
    norm_num [calculate_pattern_consistency, List.dedup]
  rw [hL, hc]
  norm_num

/-- C7: every sequence of `update_bayesian_prior` calls keeps the Bayesian
prior inside `[0.05, 0.95]`, starting from any prior in that interval (in
particular from the initial 0.5). -/
theorem C7_prior_clamped (ai : PowerfulAdaptiveAI)
    (hp : 1/20 ≤ ai.bayesian_prior ∧ ai.bayesian_prior ≤ 19/20)
    (moves : List Move) :
    1/20 ≤ (moves.foldl PowerfulAdaptiveAI.update_bayesian_prior ai).bayesian_prior ∧
    (moves.foldl PowerfulAdaptiveAI.update_bayesian_prior ai).bayesian_prior ≤ 19/20 := by
  induction moves generalizing ai with
  | nil => exact hp
  | cons m ms ih =>
      exact ih (ai.update_bayesian_prior m)
        (updatePrior_mem ai.bayesian_prior m hp.1 hp.2)

/-- C7 witness: three updates from the freshly initialized agent. -/
theorem C7_prior_clamped_witness :
    1/20 ≤ ([C, D, D].foldl PowerfulAdaptiveAI.update_bayesian_prior
      PowerfulAdaptiveAI.init).bayesian_prior ∧
    ([C, D, D].foldl PowerfulAdaptiveAI.update_bayesian_prior
      PowerfulAdaptiveAI.init).bayesian_prior ≤ 19/20 :=
  C7_prior_clamped PowerfulAdaptiveAI.init
    (by norm_num [PowerfulAdaptiveAI.init]) [C, D, D]

theorem runLedger_wins_le_uses_aux (ops : List (String × Bool))
    (a : AdvancedStrategyAnalyzer)
    (h : ∀ s, (a.strategy_performance s).wins ≤ (a.strategy_performance s).uses) :
    ∀ s, ((ops.foldl ledgerStep a).strategy_performance s).wins ≤
      ((ops.foldl ledgerStep a).strategy_performance s).uses := by
  induction ops generalizing a with
  | nil => exact h
  | cons op rest ih =>
      refine ih (ledgerStep a op) ?_
      intro s
      unfold ledgerStep AdvancedStrategyAnalyzer.record_strategy_performance
      have hws := h s
      simp only
      split
      · dsimp only
        split <;> omega
      · exact hws

/-- C8: on the fresh ledger, after any sequence of recordings, a further
`record(s, w)` increments `uses` always and `wins` iff `w`; the invariant
`wins ≤ uses` holds, the derived success rate `wins / max(1, uses)` lies in
`[0, 1]`, and an unused strategy has rate 0 rather than an error. -/
theorem C8_ledger_contract (ops : List (String × Bool)) (s : String)
    (hs : s ∈ availableStrategies) (w : Bool) :
    (((runLedger ops).record_strategy_performance s w).strategy_performance s).uses
        = ((runLedger ops).strategy_performance s).uses + 1 ∧
    (((runLedger ops).record_strategy_performance s w).strategy_performance s).wins
        = ((runLedger ops).strategy_performance s).wins + (if w then 1 else 0) ∧
    ((runLedger ops).strategy_performance s).wins ≤
        ((runLedger ops).strategy_performance s).uses ∧
    0 ≤ (runLedger ops).successRate s ∧ (runLedger ops).successRate s ≤ 1 ∧
    (((runLedger ops).strategy_performance s).uses = 0 →
        (runLedger ops).successRate s = 0) := by
  have hinv : ∀ t, ((runLedger ops).strategy_performance t).wins ≤
      ((runLedger ops).strategy_performance t).uses :=
    runLedger_wins_le_uses_aux ops .init (fun _ => le_refl 0)
  refine ⟨?_, ?_, hinv s, ?_, ?_, ?_⟩
  · simp [AdvancedStrategyAnalyzer.record_strategy_performance]
  · simp [AdvancedStrategyAnalyzer.record_strategy_performance]
  · unfold AdvancedStrategyAnalyzer.successRate
    positivity
  · unfold AdvancedStrategyAnalyzer.successRate
    have hmax : (0 : ℚ) < max 1 (((runLedger ops).strategy_performance s).uses : ℚ) :=
      lt_of_lt_of_le one_pos (le_max_left _ _)
    rw [div_le_one hmax]
    calc (((runLedger ops).strategy_performance s).wins : ℚ)
        ≤ (((runLedger ops).strategy_performance s).uses : ℚ) := by
          exact_mod_cast hinv s
      _ ≤ max 1 _ := le_max_right _ _
  · intro h0
    have hw : ((runLedger ops).strategy_performance s).wins = 0 := by
      have := hinv s
      omega
    unfold AdvancedStrategyAnalyzer.successRate
    rw [hw]
    simp

/-- C8 witness: a two-recording ledger preserves `wins ≤ uses`. -/
theorem C8_ledger_contract_witness :
    ((runLedger [("minimax", true), ("fuzzy", false)]).strategy_performance
        "minimax").wins ≤
    ((runLedger [("minimax", true), ("fuzzy", false)]).strategy_performance
        "minimax").uses :=
  (C8_ledger_contract [("minimax", true), ("fuzzy", false)] "minimax"
    (by decide) true).2.2.1

/-- C10: for every `ai_type` outside the nine named opponent types,
`StrategicOpponentAI.decide_move` returns Cooperate on every call — a
constant policy — even though the personality profile of such a type is the
default `random` profile. -/
theorem C10_unknown_type_constant (o : StrategicOpponentAI)
    (h : o.ai_type ∉ opponentTypes) (rn : ℕ) (ms os : ℤ) (g : Rng) :
    (o.decide_move rn ms os g).1 = C ∧
    init_personality o.ai_type = init_personality "random" := by
  simp only [opponentTypes, List.mem_cons, List.not_mem_nil, or_false,
    not_or] at h
  obtain ⟨n1, n2, n3, n4, n5, n6, n7, n8, n9⟩ := h
  constructor
  · simp [StrategicOpponentAI.decide_move, n1, n2, n3, n4, n5, n6, n7, n8, n9]
  · rw [show init_personality "random" = ⟨1/2, 1/2, 1/2, 1⟩ from rfl]
    simp [init_personality, n1, n2, n3, n4, n5, n6, n7, n8, n9]

/-- C10 witness: the unknown type `"chaotic"` cooperates unconditionally. -/
theorem C10_unknown_type_constant_witness :
    ((StrategicOpponentAI.init "chaotic").decide_move 0 0 0 ⟨[]⟩).1 = C ∧
    init_personality (StrategicOpponentAI.init "chaotic").ai_type =
      init_personality "random" :=
  C10_unknown_type_constant (StrategicOpponentAI.init "chaotic")
    (by decide) 0 0 0 ⟨[]⟩

/-- C2 (amended): for histories of length at least 3, `markov_prediction`
falls back to minimax exactly when the current last-2-move state has no
tallied successor; with a strict majority successor it returns the opposite
of that majority; but when the successor tallies are tied and nonzero it
deterministically returns Defect (Python's `max` picks the first dict key
`'C'` on ties, which is then countered), not the minimax decision. -/
theorem C2_markov_cases (ai : PowerfulAdaptiveAI)
    (h3 : ¬ ai.opp_history.length < 3) :
    (countTransitions ai.opp_history (last2 ai.opp_history) = (0, 0) →
      ai.markov_prediction = ai.minimax_decision) ∧
    ((countTransitions ai.opp_history (last2 ai.opp_history)).2 <
        (countTransitions ai.opp_history (last2 ai.opp_history)).1 →
      ai.markov_prediction = D) ∧
    ((countTransitions ai.opp_history (last2 ai.opp_history)).1 <
        (countTransitions ai.opp_history (last2 ai.opp_history)).2 →
      ai.markov_prediction = C) ∧
    ((countTransitions ai.opp_history (last2 ai.opp_history)).1 =
        (countTransitions ai.opp_history (last2 ai.opp_history)).2 ∧
      0 < (countTransitions ai.opp_history (last2 ai.opp_history)).1 →
      ai.markov_prediction = D) := by
  set t := countTransitions ai.opp_history (last2 ai.opp_history) with ht
  have hbody : ai.markov_prediction =
      (if t.1 + t.2 = 0 then ai.minimax_decision
       else if (if t.2 > t.1 then D else C) = C then D else C) := by
    unfold PowerfulAdaptiveAI.markov_prediction
    rw [if_neg h3]
  refine ⟨?_, ?_, ?_, ?_⟩
  · intro h0
    have h1 : t.1 + t.2 = 0 := by rw [h0]; rfl
    rw [hbody, if_pos h1]
  · intro hlt
    rw [hbody, if_neg (show ¬(t.1 + t.2 = 0) by omega),
        if_neg (show ¬(t.2 > t.1) by omega)]
    simp
  · intro hlt
    rw [hbody, if_neg (show ¬(t.1 + t.2 = 0) by omega),
        if_pos (show t.2 > t.1 from hlt)]
    simp
  · intro hEq
    rw [hbody, if_neg (show ¬(t.1 + t.2 = 0) by omega),
        if_neg (show ¬(t.2 > t.1) by omega)]
    simp

/-- C2 witness: a strict-majority history (all-cooperate tail) where the
predicted majority `C` is countered with `D`, through the theorem. -/
theorem C2_markov_cases_witness :
    ({ PowerfulAdaptiveAI.init with
        opp_history := [C, C, C, C] } : PowerfulAdaptiveAI).markov_prediction = D :=
  (C2_markov_cases { PowerfulAdaptiveAI.init with opp_history := [C, C, C, C] }
    (by decide)).2.1 (by decide)

/-! Shape lemmas: which fields each stateful routine can touch. -/

theorem move_eq_C_or_D (m : Move) : m = C ∨ m = D := by
  cases m
  · exact Or.inl rfl
  · exact Or.inr rfl

theorem select_strategy_shape (ai : PowerfulAdaptiveAI) (rn : ℕ) (ms os : ℤ)
    (g : Rng) :
    ∃ cs cd g', ai.select_strategy rn ms os g =
      ({ ai with current_strategy := cs, strategy_change_cooldown := cd }, g') := by
  unfold PowerfulAdaptiveAI.select_strategy
  dsimp only
  repeat' split
  all_goals exact ⟨_, _, _, rfl⟩

theorem adaptive_decision_shape (ai : PowerfulAdaptiveAI) (g : Rng) :
    ∃ cl ag m g', ai.adaptive_decision g =
      (m, { ai with consecutive_losses := cl, aggression_level := ag }, g') := by
  unfold PowerfulAdaptiveAI.adaptive_decision
  dsimp only
  repeat' split
  all_goals exact ⟨_, _, _, _, rfl⟩

theorem dispatch_strategy_shape (ai : PowerfulAdaptiveAI) (g : Rng) :
    ∃ cl ag m g', ai.dispatch_strategy g =
      (m, { ai with consecutive_losses := cl, aggression_level := ag }, g') := by
  unfold PowerfulAdaptiveAI.dispatch_strategy
  dsimp only
  repeat' split
  all_goals first
    | exact ⟨_, _, _, _, rfl⟩
    | exact adaptive_decision_shape ai g

theorem decide_move_shape (ai : PowerfulAdaptiveAI) (rn : ℕ) (ms os : ℤ)
    (g : Rng) :
    ∃ cs cd cl ag bp m g', ai.decide_move rn ms os g =
      (m, { ai with current_strategy := cs, strategy_change_cooldown := cd,
                    consecutive_losses := cl, aggression_level := ag,
                    bayesian_prior := bp }, g') := by
  obtain ⟨cs, cd, g1, hsel⟩ := select_strategy_shape ai rn ms os g
  obtain ⟨cl, ag, m, g2, hdis⟩ := dispatch_strategy_shape
    { ai with current_strategy := cs, strategy_change_cooldown := cd } g1.next.2
  unfold PowerfulAdaptiveAI.decide_move
  rw [hsel]
  dsimp only
  split
  · exact ⟨cs, cd, ai.consecutive_losses, ai.aggression_level,
      ai.bayesian_prior, _, _, rfl⟩
  · rw [hdis]
    exact ⟨cs, cd, cl, ag, _, m, g2, rfl⟩

/-- C2 counterexample: on `markovCexAI` the final state's successors are
tied 1-1, yet the Markov predictor returns Defect while the minimax
decision at the same state is Cooperate — ties do not fall back to
minimax. -/
theorem C2_counterexample :
    countTransitions markovCexAI.opp_history (last2 markovCexAI.opp_history)
        = (1, 1) ∧
    markovCexAI.markov_prediction = D ∧
    markovCexAI.minimax_decision = C := by
  refine ⟨by decide, by decide, ?_⟩
  norm_num [PowerfulAdaptiveAI.minimax_decision, markovCexAI, PowerfulAdaptiveAI.init,
    coopRate, recentCoopRate,
    show markovCexOpp.count C = 22 from by decide,
    show markovCexOpp.length = 25 from by decide,
    show (lastN 3 markovCexOpp).count C = 2 from by decide,
    show markovCexMy.count D = 18 from by decide,
    show markovCexMy.length = 25 from by decide]

theorem play_round_preserves_analyzer (d : GameDriver) (g : Rng) :
    (d.play_round g).1.adaptive.analyzer = d.adaptive.analyzer := by
  unfold GameDriver.play_round
  split
  · rfl
  · obtain ⟨cs, cd, cl, ag, bp, m, g', h⟩ :=
      decide_move_shape d.adaptive d.round_number d.p1_score d.p2_score g
    rw [h]

/-- C1 (amended): `play_round` never invokes `record_strategy_performance`
— the function is dead code — so the adaptive agent's strategy performance
ledger after any round equals the ledger before it, for every driver state
and every randomness stream. -/
theorem C1_ledger_unchanged (d : GameDriver) (g : Rng) :
    (d.play_round g).1.adaptive.analyzer.strategy_performance =
      d.adaptive.analyzer.strategy_performance := by
  rw [play_round_preserves_analyzer]

/-- C1 counterexample: one concrete round from a fresh driver against the
`cooperative` opponent (draws 1/2, 1/2; the round plays `(C, C)` scoring
`(3, 3)`, so the claim's `won_round` comparison `3 ≥ 3` is true).  Had
`record_strategy_performance` been invoked for the strategy used, the
post-round ledger would equal the recorded ledger; it does not (`uses`
stays 0 instead of 1). -/
theorem C1_counterexample :
    ((GameDriver.init "cooperative").play_round
        ⟨[1/2, 1/2]⟩).1.adaptive.analyzer.strategy_performance ≠
      ((GameDriver.init "cooperative").adaptive.analyzer.record_strategy_performance
          (GameDriver.init "cooperative").adaptive.current_strategy
          true).strategy_performance := by
  intro hEq
  have h2 := congrArg (fun f => (f "minimax").uses) hEq
  rw [play_round_preserves_analyzer] at h2
  simp [GameDriver.init, PowerfulAdaptiveAI.init, AdvancedStrategyAnalyzer.init,
    AdvancedStrategyAnalyzer.record_strategy_performance] at h2

/-- C4 (amended): on every call to `decide_move`, when the 1% override does
not fire the Bayesian prior is updated with the move just chosen before it
is returned; but when the override fires (post-selection draw below 0.01)
the randomly chosen move is returned with the prior left untouched. -/
theorem C4_prior_update (ai : PowerfulAdaptiveAI) (rn : ℕ) (ms os : ℤ)
    (g : Rng) :
    ((ai.select_strategy rn ms os g).2.next.1 < 1/100 →
      (ai.decide_move rn ms os g).2.1.bayesian_prior = ai.bayesian_prior) ∧
    (¬ (ai.select_strategy rn ms os g).2.next.1 < 1/100 →
      (ai.decide_move rn ms os g).2.1.bayesian_prior =
        updatePrior ai.bayesian_prior (ai.decide_move rn ms os g).1) := by
  obtain ⟨cs, cd, g1, hsel⟩ := select_strategy_shape ai rn ms os g
  obtain ⟨cl, ag, m, g2, hdis⟩ := dispatch_strategy_shape
    { ai with current_strategy := cs, strategy_change_cooldown := cd } g1.next.2
  constructor
  · intro hq
    have hq1 : g1.next.1 < 1/100 := by
      rw [hsel] at hq
      exact hq
    unfold PowerfulAdaptiveAI.decide_move
    rw [hsel]
    dsimp only
    rw [if_pos hq1]
  · intro hq
    have hq1 : ¬ g1.next.1 < 1/100 := by
      rw [hsel] at hq
      exact hq
    unfold PowerfulAdaptiveAI.decide_move
    rw [hsel]
    dsimp only
    rw [if_neg hq1, hdis]
    dsimp only [PowerfulAdaptiveAI.update_bayesian_prior]

/-- C4 witness: a fresh agent with a single zero draw takes the override
branch and keeps its prior. -/
theorem C4_prior_update_witness :
    (PowerfulAdaptiveAI.init.decide_move 0 0 0 ⟨[0]⟩).2.1.bayesian_prior =
      PowerfulAdaptiveAI.init.bayesian_prior :=
  (C4_prior_update PowerfulAdaptiveAI.init 0 0 0 ⟨[0]⟩).1
    (by norm_num [PowerfulAdaptiveAI.select_strategy, PowerfulAdaptiveAI.init,
      Rng.next])

/-- C4 counterexample: with draws `[0, 0]` the override fires and the move
`C` is returned, yet the returned prior 0.5 differs from the claimed
updated prior `updatePrior 0.5 C = 0.55` — the override path skips the
update. -/
theorem C4_counterexample :
    (PowerfulAdaptiveAI.init.decide_move 0 0 0 ⟨[0, 0]⟩).1 = C ∧
    (PowerfulAdaptiveAI.init.decide_move 0 0 0 ⟨[0, 0]⟩).2.1.bayesian_prior ≠
      updatePrior PowerfulAdaptiveAI.init.bayesian_prior
        (PowerfulAdaptiveAI.init.decide_move 0 0 0 ⟨[0, 0]⟩).1 := by
  have h1 : PowerfulAdaptiveAI.init.decide_move 0 0 0 ⟨[0, 0]⟩ =
      (C, PowerfulAdaptiveAI.init, (⟨[]⟩ : Rng)) := by
    norm_num [PowerfulAdaptiveAI.decide_move, PowerfulAdaptiveAI.select_strategy,
      PowerfulAdaptiveAI.init, Rng.next]
  rw [h1]
  refine ⟨rfl, ?_⟩
  norm_num [updatePrior, PowerfulAdaptiveAI.init]

/-- C5: the safety contract of the decision core — the Bayesian posterior's
denominator is nonzero whenever the prior lies in `[0.05, 0.95]`; an
unrecognized current-strategy name dispatches to the minimax decision; and
`decide_move` together with each of the six decision algorithms always
yields exactly one of Cooperate or Defect (the embedding is total: no code
path can fail to produce a move). -/
theorem C5_total_safety (ai : PowerfulAdaptiveAI) (g : Rng) (rn : ℕ)
    (ms os : ℤ)
    (hp : 1/20 ≤ ai.bayesian_prior ∧ ai.bayesian_prior ≤ 19/20) :
    ai.bayesDenominator ≠ 0 ∧
    (ai.current_strategy ∉ availableStrategies →
      (ai.dispatch_strategy g).1 = ai.minimax_decision) ∧
    ((ai.decide_move rn ms os g).1 = C ∨ (ai.decide_move rn ms os g).1 = D) ∧
    (ai.minimax_decision = C ∨ ai.minimax_decision = D) ∧
    (ai.markov_prediction = C ∨ ai.markov_prediction = D) ∧
    (ai.pattern_matcher_decision = C ∨ ai.pattern_matcher_decision = D) ∧
    (ai.bayesian_decision = C ∨ ai.bayesian_decision = D) ∧
    ((ai.tit_for_tat_decision g).1 = C ∨ (ai.tit_for_tat_decision g).1 = D) ∧
    ((ai.fuzzy_decision g).1 = C ∨ (ai.fuzzy_decision g).1 = D) ∧
    ((ai.adaptive_decision g).1 = C ∨ (ai.adaptive_decision g).1 = D) := by
  refine ⟨?_, ?_, move_eq_C_or_D _, move_eq_C_or_D _, move_eq_C_or_D _,
    move_eq_C_or_D _, move_eq_C_or_D _, move_eq_C_or_D _, move_eq_C_or_D _,
    move_eq_C_or_D _⟩
  · have h0 := recentCoopRate_nonneg ai.opp_history
    have h1 := recentCoopRate_le_one ai.opp_history
    unfold PowerfulAdaptiveAI.bayesDenominator
    dsimp only
    have hpos : 0 < recentCoopRate ai.opp_history * ai.bayesian_prior +
        (1 - recentCoopRate ai.opp_history) * (1 - ai.bayesian_prior) := by
      nlinarith [hp.1, hp.2]
    exact hpos.ne'
  · intro hs
    simp only [availableStrategies, List.mem_cons, List.not_mem_nil, or_false,
      not_or] at hs
    obtain ⟨n1, n2, n3, n4, n5, n6⟩ := hs
    simp [PowerfulAdaptiveAI.dispatch_strategy, n1, n2, n3, n4, n5, n6]

/-- C5 witness: the contract instantiated on an agent whose strategy name
is outside the closed set. -/
theorem C5_total_safety_witness :
    unknownStrategyAI.bayesDenominator ≠ 0 ∧
    (unknownStrategyAI.dispatch_strategy ⟨[]⟩).1 =
      unknownStrategyAI.minimax_decision :=
  ⟨(C5_total_safety unknownStrategyAI ⟨[]⟩ 0 0 0
      (by norm_num [unknownStrategyAI, PowerfulAdaptiveAI.init])).1,
   (C5_total_safety unknownStrategyAI ⟨[]⟩ 0 0 0
      (by norm_num [unknownStrategyAI, PowerfulAdaptiveAI.init])).2.1
      (by decide)⟩

theorem reachable_wf (d : GameDriver) (h : Reachable d) : DriverWellFormed d := by
  induction h with
  | init t => exact ⟨rfl, rfl, rfl, rfl, rfl, rfl, rfl, rfl⟩
  | play d g hd ih =>
      obtain ⟨i1, i2, i3, i4, i5, i6, i7, i8⟩ := ih
      unfold GameDriver.play_round
      split
      · exact ⟨i1, i2, i3, i4, i5, i6, i7, i8⟩
      · obtain ⟨cs, cd, cl, ag, bp, m, g', h⟩ :=
          decide_move_shape d.adaptive d.round_number d.p1_score d.p2_score g
        rw [h]
        exact ⟨i1, i2, i3, i4, i5, i6, i7, i8⟩
  | battle_reset d hd ih =>
      obtain ⟨i1, i2, i3, i4, i5, i6, i7, i8⟩ := ih
      exact ⟨i1, rfl, i3, i4, i5, i6, i7, i8⟩
  | change_opponent d t hd ih =>
      obtain ⟨i1, i2, i3, i4, i5, i6, _, _⟩ := ih
      exact ⟨i1, i2, i3, i4, i5, i6, rfl, rfl⟩

theorem adaptive_reset_eq_init (ai : PowerfulAdaptiveAI)
    (h1 : ai.name = "Adaptive AI") (h3 : ai.learning_rate = 85/100)
    (h4 : ai.prediction_accuracy = 88/100) (h5 : ai.risk_tolerance = 4/10)
    (h6 : ai.pattern_memory = []) :
    ai.reset = PowerfulAdaptiveAI.init := by
  cases ai
  simp_all [PowerfulAdaptiveAI.reset, PowerfulAdaptiveAI.init]

theorem opponent_reset_eq_init (o : StrategicOpponentAI)
    (h1 : o.name = opponentName o.ai_type)
    (h2 : o.personality = init_personality o.ai_type) :
    o.reset = StrategicOpponentAI.init o.ai_type := by
  cases o
  simp_all [StrategicOpponentAI.reset, StrategicOpponentAI.init]

/-- C9: in every reachable driver state, resetting the adaptive agent
yields exactly the freshly constructed agent (empty histories, strategy
`minimax`, zero cooldown and loss counters, prior 0.5, default aggression,
fresh zeroed analyzer), and resetting the opponent yields exactly a fresh
opponent of the same `ai_type` — structural equality of the whole state. -/
theorem C9_reset_is_fresh (d : GameDriver) (h : Reachable d) :
    d.adaptive.reset = PowerfulAdaptiveAI.init ∧
    d.opponent.reset = StrategicOpponentAI.init d.opponent.ai_type := by
  obtain ⟨i1, i2, i3, i4, i5, i6, i7, i8⟩ := reachable_wf d h
  exact ⟨adaptive_reset_eq_init d.adaptive i1 i3 i4 i5 i6,
    opponent_reset_eq_init d.opponent i7 i8⟩

/-- C9 witness: the reset of a fresh `mirror`-opponent driver state. -/
theorem C9_reset_is_fresh_witness :
    (GameDriver.init "mirror").adaptive.reset = PowerfulAdaptiveAI.init ∧
    (GameDriver.init "mirror").opponent.reset =
      StrategicOpponentAI.init (GameDriver.init "mirror").opponent.ai_type :=
  C9_reset_is_fresh (GameDriver.init "mirror") (Reachable.init "mirror")

end IPD


